import Mathlib

/-!
Shallow embedding of the `asiaspanel` backend (`src/backend/app.py`), covering
the TTS fallback-orchestration pipeline (`tts`, lines 231-387), the delivery
resolver (`_return_uploaded`, lines 247-274), the audio proxy read path
(`audio_proxy`, lines 390-456), the mock translation path (`translate`,
lines 175-228), the authentication dependency (`verify_auth`, lines 106-121),
and the voice-sample extension logic (`upload_voice_sample`, lines 469-485).

External effects (HTTP provider calls, the Azure blob store, the gTTS
library) are modelled as per-request outcome oracles carried by an
environment record: each oracle field is the result the corresponding call
would produce for this request, since each call happens at most once per
request.  Local file-system writes are modelled as an explicit list of
`(filename, content)` pairs persisted during the request.  A raised
`HTTPException` is modelled as the `Except.error` branch carrying the status
code and detail string.
-/

namespace AsiasPanel

/-- Python truthiness of an `Optional[str]`: `None` and `""` are falsy. -/
def optTruthy : Option String → Bool
  | none => false
  | some s => !(s == "")

/-- Structural infix test on lists, used to model the Python `in` operator on strings. -/
def listContains [BEq α] (pat : List α) : List α → Bool
  | [] => pat.isEmpty
  | a :: t => pat.isPrefixOf (a :: t) || listContains pat t

/-- Python `sub in s` for strings (substring containment). -/
def strContains (s sub : String) : Bool :=
  listContains sub.data s.data

/-- Python `s.startswith(p)`. -/
def strStartsWith (s p : String) : Bool :=
  p.data.isPrefixOf s.data

/-- Python `s.endswith(p)`. -/
def strEndsWith (s p : String) : Bool :=
  p.data.isSuffixOf s.data

/-- Python `s.lower()` (ASCII case folding, as used on content types). -/
def strToLower (s : String) : String :=
  String.mk (s.data.map Char.toLower)

/-- Python `s[::-1]`: reverse a string code-point-wise. -/
def strReverse (s : String) : String :=
  String.mk s.data.reverse

/-- Fuel-bounded worker for `pyReplace`; the fuel is the input length, enough
because every step consumes at least one character. -/
def pyReplaceAux (pat repl : List Char) : Nat → List Char → List Char
  | 0, s => s
  | _ + 1, [] => []
  | fuel + 1, c :: rest =>
    if pat.isPrefixOf (c :: rest) then
      repl ++ pyReplaceAux pat repl fuel (List.drop (pat.length - 1) rest)
    else
      c :: pyReplaceAux pat repl fuel rest

/-- Python `s.replace(pat, repl)` for a non-empty pattern: replace every
non-overlapping occurrence left to right.  (The backend only calls it with
the pattern `"Bearer "`, which is non-empty; an empty pattern returns `s`
unchanged here.) -/
def pyReplace (s pat repl : String) : String :=
  if pat = "" then s
  else String.mk (pyReplaceAux pat.data repl.data s.data.length s.data)

/-- Python `filename.rsplit(".", 1)[-1] if "." in filename else ""`:
the characters after the last dot, or `""` when there is no dot. -/
def fileExtOf (s : String) : String :=
  if s.data.contains '.' then
    String.mk ((s.data.reverse.takeWhile (fun c => !(c == '.'))).reverse)
  else ""

deriving instance DecidableEq for Except

/-- A raised `fastapi.HTTPException`, as seen by the caller. -/
structure HTTPErr where
  status : Nat
  detail : String
deriving Repr, DecidableEq

/-- Request body of `POST /api/translate` (`TranslateRequest`, lines 130-133). -/
structure TranslateRequest where
  text : String
  source : String := "auto"
  target : String := "en"
deriving Repr, DecidableEq

/-- JSON response of `translate` (lines 220, 224, 228). -/
structure TranslateResponse where
  translated : String
  target : String
  mock : Bool
  error : Option String := none
deriving Repr, DecidableEq

/-- Embeds `translate` (lines 175-228).  `openaiConfigured` is the condition
`OPENAI_API_KEY and openai is not None`; `openaiCall` is the outcome of
`call_openai` run via `asyncio.to_thread` (`.ok` = the translated text,
`.error` = the exception text). -/
def translate (openaiConfigured : Bool) (openaiCall : Except String String)
    (req : TranslateRequest) : Except HTTPErr TranslateResponse :=
  if req.text = "" then .error ⟨400, "text is required"⟩
  else if openaiConfigured then
    match openaiCall with
    | .ok t => .ok ⟨t, req.target, false, none⟩
    | .error e => .ok ⟨strReverse req.text, req.target, true, some e⟩
  else .ok ⟨strReverse req.text, req.target, true, none⟩

/-- Embeds `verify_auth` (lines 106-121).  `masterPassword` is the module
global `MASTER_PASSWORD` (absent `.pw` file gives `none`; the Python guard
`if not MASTER_PASSWORD` also treats `""` as disabled).  `validTokens` is the
in-memory `VALID_TOKENS` set, `authorization` the raw header value. -/
def verify_auth (masterPassword : Option String) (validTokens : List String)
    (authorization : Option String) : Except HTTPErr Bool :=
  if optTruthy masterPassword = false then .ok true
  else
    match authorization with
    | none => .error ⟨401, "Authentication required"⟩
    | some a =>
      if a = "" then .error ⟨401, "Authentication required"⟩
      else if strStartsWith a "Bearer " then
        if validTokens.contains (pyReplace a "Bearer " "") then .ok true
        else .error ⟨401, "Invalid or expired token"⟩
      else .error ⟨401, "Invalid authorization header"⟩

/-- Request body of `POST /api/tts` (`TTSRequest`, lines 136-139). -/
structure TTSRequest where
  text : String
  voice : String := "default"
  format : String := "wav"
deriving Repr, DecidableEq

/-- JSON response of `tts` (built at lines 269, 272, 274, 374, 383-385).
Absent JSON keys are `none`. -/
structure TTSResponse where
  url : String
  mock : Bool
  storage : Option String := none
  blob_url : Option String := none
  error : Option String := none
  openai_error : Option String := none
deriving Repr, DecidableEq

/-- Which external synthesis provider the pipeline actually invoked. -/
inductive Provider where
  | elevenlabs
  | openai
  | gtts
deriving Repr, DecidableEq

/-- Environment of one `tts` request: module-level configuration plus one
outcome oracle per external call the handler can make (each call happens at
most once per request). -/
structure Env where
  /-- `ELEVENLABS_API_KEY` (line 71); the guard at line 289 is truthiness. -/
  elevenlabsKey : Option String
  /-- `OPENAI_API_KEY and openai is not None` (lines 324, 186). -/
  openaiConfigured : Bool
  /-- `_blob_service is not None` (lines 85-92, 254). -/
  blobConfigured : Bool
  /-- `os.getenv("BACKEND_URL", "")` (line 252). -/
  backendUrl : String
  /-- The parsed `cloned_voices` map of `storage/config.json` when the file
  exists (lines 279-286): local voice id to `elevenlabs_id`. -/
  configFile : Option (List (String × String))
  /-- Hex of the `uuid4` used for the audio filename (line 243). -/
  uuidAudio : String
  /-- Hex of the `uuid4` used for the placeholder filename (line 380). -/
  uuidPlaceholder : String
  /-- Outcome of the ElevenLabs TTS HTTP call (lines 303-311): `.ok` is the
  response body bytes, `.error` the `RequestException` detail (line 315). -/
  elevenlabsResult : Except String String
  /-- Outcome of the OpenAI TTS attempt (lines 329-357): `some` is the audio
  payload fully read; `none` is any failure — the inner handlers (lines
  338-340, 356-358) swallow the exception and record no diagnostic. -/
  openaiResult : Option String
  /-- Outcome of `gTTS(...).save(...)` (lines 368-370): `.ok` is the saved
  audio, `.error` the exception text (line 377). -/
  gttsResult : Except String String
  /-- Outcome of the Azure upload in `_return_uploaded` (lines 256-266):
  `.ok` is `blob_client.url`, `.error` the exception text (line 270).
  Container-creation errors are swallowed at lines 261-263 and never reach
  this outcome. -/
  blobUploadResult : Except String String
deriving Repr, DecidableEq

/-- Everything observable of one `tts` call: the HTTP-level result, the list
of files persisted to local storage (in write order), and the providers
actually invoked. -/
structure TTSOutcome where
  response : Except HTTPErr TTSResponse
  files : List (String × String)
  attempts : List Provider
deriving Repr, DecidableEq

/-- `audio_filename = f"tts_{uuid.uuid4().hex}.mp3"` (line 243). -/
def audioFilename (env : Env) : String :=
  "tts_" ++ env.uuidAudio ++ ".mp3"

/-- `placeholder_name = f"tts_{uuid.uuid4().hex}.txt"` (line 380). -/
def placeholderName (env : Env) : String :=
  "tts_" ++ env.uuidPlaceholder ++ ".txt"

/-- Content of the last-resort placeholder artifact (line 382). -/
def placeholderContent (req : TTSRequest) : String :=
  "TTS fallback placeholder for voice=" ++ req.voice ++ ", format=" ++
    req.format ++ "\n\n" ++ req.text

/-- Embeds `_return_uploaded` (lines 247-274): the delivery resolver for an
audio file already written to local storage under `name`. -/
def return_uploaded (env : Env) (name : String) : TTSResponse :=
  if env.blobConfigured then
    match env.blobUploadResult with
    | .ok rawUrl =>
      { url := env.backendUrl ++ "/api/audio/" ++ name, mock := false,
        storage := some "azure", blob_url := some rawUrl }
    | .error e =>
      { url := env.backendUrl ++ "/storage/" ++ name, mock := false,
        error := some e }
  else
    { url := env.backendUrl ++ "/storage/" ++ name, mock := false }

/-- `config.get("cloned_voices", {})[req.voice]["elevenlabs_id"]` guarded by
`config_file.exists()` and `req.voice in cloned_voices` (lines 279-286). -/
def clonedLookup (env : Env) (voice : String) : Option String :=
  match env.configFile with
  | none => none
  | some cloned => cloned.lookup voice

/-- Embeds the tail of `tts` from the gTTS fallback on (lines 365-387).
`openaiError` is the accumulated `openai_error` variable, `atts` the
providers invoked so far. -/
def ttsFromGtts (env : Env) (req : TTSRequest) (openaiError : Option String)
    (atts : List Provider) : TTSOutcome :=
  match env.gttsResult with
  | .ok audio =>
    let base := return_uploaded env (audioFilename env)
    ⟨.ok { base with
            openai_error := if optTruthy openaiError then openaiError else none },
     [(audioFilename env, audio)], atts ++ [.gtts]⟩
  | .error e =>
    ⟨.ok { url := "/storage/" ++ placeholderName env, mock := true,
           error := some e,
           openai_error := if optTruthy openaiError then openaiError else none },
     [(placeholderName env, placeholderContent req)], atts ++ [.gtts]⟩

/-- Embeds `tts` from the OpenAI attempt on (lines 323-387). -/
def ttsFromOpenai (env : Env) (req : TTSRequest) (openaiError : Option String)
    (atts : List Provider) : TTSOutcome :=
  if env.openaiConfigured then
    match env.openaiResult with
    | some audio =>
      ⟨.ok (return_uploaded env (audioFilename env)),
       [(audioFilename env, audio)], atts ++ [.openai]⟩
    | none => ttsFromGtts env req openaiError (atts ++ [.openai])
  else ttsFromGtts env req openaiError atts

/-- Embeds the `tts` endpoint (lines 231-387): empty-text rejection, the
cloned-voice ElevenLabs stage, then the OpenAI stage, then the gTTS
fallback, then the placeholder terminal state. -/
def tts (env : Env) (req : TTSRequest) : TTSOutcome :=
  if req.text = "" then
    ⟨.error ⟨400, "text is required"⟩, [], []⟩
  else
    match clonedLookup env req.voice with
    | some _ =>
      if optTruthy env.elevenlabsKey then
        match env.elevenlabsResult with
        | .ok audio =>
          ⟨.ok (return_uploaded env (audioFilename env)),
           [(audioFilename env, audio)], [.elevenlabs]⟩
        | .error e =>
          ttsFromOpenai env req (some ("ElevenLabs: " ++ e)) [.elevenlabs]
      else
        ttsFromOpenai env req (some "ElevenLabs API key not configured") []
    | none => ttsFromOpenai env req none []

/-- The synthesis-diagnostic trail a `tts` response carries: the code keeps a
single `openai_error` string (lines 276, 317, 321, 360, 374, 385), so the
trail has at most one element. -/
def synthTrail (r : TTSResponse) : List String :=
  r.openai_error.toList

/-- Outcome of the remote blob fetch in `audio_proxy` (lines 396-432):
`exists()` returned false; `exists()` true and `readall()` succeeded; or an
exception at either of the two remote steps. -/
inductive RemoteFetch where
  | notExists
  | found (data : String)
  | errorAtExists (e : String)
  | errorAtDownload (e : String)
deriving Repr, DecidableEq

/-- A successfully served audio body: where it came from, its bytes, and the
media type inferred from the filename. -/
structure ServedAudio where
  source : String
  data : String
  mediaType : String
deriving Repr, DecidableEq

/-- Media type from the filename extension (lines 413-420 and 440-446):
`.wav`, `.ogg`, `.webm` are special-cased, everything else is mpeg. -/
def mediaTypeFor (name : String) : String :=
  if strEndsWith name ".wav" then "audio/wav"
  else if strEndsWith name ".ogg" then "audio/ogg"
  else if strEndsWith name ".webm" then "audio/webm"
  else "audio/mpeg"

/-- Steps `audio_proxy` performs, in order. -/
inductive ProxyOp where
  | remoteExistsCheck
  | remoteDownload
  | localCheck
deriving Repr, DecidableEq

/-- Result of one `audio_proxy` call plus the trace of steps taken. -/
structure ProxyOutcome where
  response : Except HTTPErr ServedAudio
  ops : List ProxyOp
deriving Repr, DecidableEq

/-- The local-file tail of `audio_proxy` (lines 434-456): serve the file from
local storage if present, else 404. -/
def proxyLocalStep (localFile : Option String) (name : String)
    (pre : List ProxyOp) : ProxyOutcome :=
  match localFile with
  | some c => ⟨.ok ⟨"local", c, mediaTypeFor name⟩, pre ++ [.localCheck]⟩
  | none => ⟨.error ⟨404, "Audio not found"⟩, pre ++ [.localCheck]⟩

/-- Embeds `audio_proxy` (lines 390-456).  `blobConfigured` is
`_blob_service is not None`, `remote` the outcome of the remote existence
check and download, `localFile` the content of `STORAGE_DIR / name` when it
exists. -/
def audio_proxy (blobConfigured : Bool) (remote : RemoteFetch)
    (localFile : Option String) (name : String) : ProxyOutcome :=
  if blobConfigured then
    match remote with
    | .found d =>
      ⟨.ok ⟨"remote", d, mediaTypeFor name⟩, [.remoteExistsCheck, .remoteDownload]⟩
    | .notExists => proxyLocalStep localFile name [.remoteExistsCheck]
    | .errorAtExists _ => proxyLocalStep localFile name [.remoteExistsCheck]
    | .errorAtDownload _ =>
      proxyLocalStep localFile name [.remoteExistsCheck, .remoteDownload]
  else proxyLocalStep localFile name []

/-- Whether the remote fetch yields data (the only case `audio_proxy` serves
from the remote store). -/
def remoteSuccess : RemoteFetch → Option String
  | .found d => some d
  | _ => none

/-- Embeds the extension choice of `upload_voice_sample` (lines 470-481):
default `.webm`; a truthy content type is consulted (substring match after
lowercasing, in the order wav, mp3, ogg); otherwise a truthy filename
last-dot extension is used when it is one of the four known formats. -/
def uploadExt (contentType : Option String) (filename : Option String) : String :=
  if optTruthy contentType then
    let ct := strToLower (contentType.getD "")
    if strContains ct "wav" then ".wav"
    else if strContains ct "mp3" then ".mp3"
    else if strContains ct "ogg" then ".ogg"
    else ".webm"
  else if optTruthy filename then
    let fe := strToLower (fileExtOf (filename.getD ""))
    if fe = "wav" ∨ fe = "mp3" ∨ fe = "ogg" ∨ fe = "webm" then "." ++ fe
    else ".webm"
  else ".webm"

/-- The stored voice-sample filename `f"{voice_id}{ext}"` (line 485). -/
def storedSampleName (voiceId : String) (contentType filename : Option String) :
    String :=
  voiceId ++ uploadExt contentType filename

end AsiasPanel

namespace AsiasPanel

example : translate false (.error "ignored") ⟨"hello world", "auto", "de"⟩ =
    .ok ⟨"dlrow olleh", "de", true, none⟩ := rfl

example : verify_auth (some "pw") ["tok"] (some "Bearer tok") = .ok true := rfl

example : verify_auth none [] none = .ok true := rfl

example : verify_auth (some "pw") ["tok"] (some "Basic x") =
    .error ⟨401, "Invalid authorization header"⟩ := rfl

/-- Sanity check: the total-failure path produces the placeholder. -/
example :
    tts ⟨some "k", true, false, "", some [("v", "el1")], "aaaa", "bbbb",
         .error "elerr", none, .error "gerr", .ok "unused"⟩
        ⟨"hi", "v", "wav"⟩ =
      ⟨.ok { url := "/storage/tts_bbbb.txt", mock := true,
             error := some "gerr",
             openai_error := some "ElevenLabs: elerr" },
       [("tts_bbbb.txt", "TTS fallback placeholder for voice=v, format=wav\n\nhi")],
       [.elevenlabs, .openai, .gtts]⟩ := rfl

example :
    tts ⟨none, false, true, "https://x", none, "aaaa", "bbbb",
         .error "e", some "AUDIO", .ok "g", .ok "https://blob/a.mp3"⟩
        ⟨"hi", "default", "wav"⟩ =
      ⟨.ok { url := "https://x/api/audio/tts_aaaa.mp3", mock := false,
             storage := some "azure", blob_url := some "https://blob/a.mp3",
             error := none, openai_error := none },
       [("tts_aaaa.mp3", "g")], [.gtts]⟩ := rfl

example : audio_proxy true (.found "xyz") none "a.wav" =
    ⟨.ok ⟨"remote", "xyz", "audio/wav"⟩, [.remoteExistsCheck, .remoteDownload]⟩ := rfl

example : audio_proxy true (.errorAtExists "boom") (some "loc") "a.mp3" =
    ⟨.ok ⟨"local", "loc", "audio/mpeg"⟩, [.remoteExistsCheck, .localCheck]⟩ := rfl

example : audio_proxy false .notExists none "a.ogg" =
    ⟨.error ⟨404, "Audio not found"⟩, [.localCheck]⟩ := rfl

example : uploadExt (some "audio/flac") (some "x.wav") = ".webm" := rfl

example : uploadExt none (some "x.WAV") = ".wav" := rfl

example : uploadExt (some "audio/MP3") none = ".mp3" := rfl

example : uploadExt none (some "noext") = ".webm" := rfl

/-! ## Helper lemmas -/

theorem return_uploaded_url (env : Env) (n : String) :
    (return_uploaded env n).url = env.backendUrl ++ "/api/audio/" ++ n ∨
    (return_uploaded env n).url = env.backendUrl ++ "/storage/" ++ n := by
  unfold return_uploaded
  by_cases hb : env.blobConfigured
  · cases hu : env.blobUploadResult <;> simp [hb, hu]
  · simp [hb]

theorem return_uploaded_mock (env : Env) (n : String) :
    (return_uploaded env n).mock = false := by
  unfold return_uploaded
  by_cases hb : env.blobConfigured
  · cases hu : env.blobUploadResult <;> simp [hb, hu]
  · simp [hb]

theorem ttsFromGtts_ok (env : Env) (req : TTSRequest) (oe : Option String)
    (atts : List Provider) :
    ∃ r n c, (ttsFromGtts env req oe atts).response = .ok r ∧
      (ttsFromGtts env req oe atts).files = [(n, c)] ∧
      (n = audioFilename env ∨ n = placeholderName env) ∧
      (r.url = env.backendUrl ++ "/api/audio/" ++ n ∨
       r.url = env.backendUrl ++ "/storage/" ++ n ∨
       r.url = "/storage/" ++ n) := by
  unfold ttsFromGtts
  cases hg : env.gttsResult with
  | ok audio =>
    refine ⟨_, audioFilename env, audio, rfl, rfl, Or.inl rfl, ?_⟩
    have h := return_uploaded_url env (audioFilename env)
    rcases h with h | h
    · exact Or.inl h
    · exact Or.inr (Or.inl h)
  | error e =>
    exact ⟨_, placeholderName env, placeholderContent req, rfl, rfl,
      Or.inr rfl, Or.inr (Or.inr rfl)⟩

theorem ttsFromOpenai_ok (env : Env) (req : TTSRequest) (oe : Option String)
    (atts : List Provider) :
    ∃ r n c, (ttsFromOpenai env req oe atts).response = .ok r ∧
      (ttsFromOpenai env req oe atts).files = [(n, c)] ∧
      (n = audioFilename env ∨ n = placeholderName env) ∧
      (r.url = env.backendUrl ++ "/api/audio/" ++ n ∨
       r.url = env.backendUrl ++ "/storage/" ++ n ∨
       r.url = "/storage/" ++ n) := by
  unfold ttsFromOpenai
  by_cases ho : env.openaiConfigured
  · simp only [ho, if_true]
    cases hr : env.openaiResult with
    | some audio =>
      refine ⟨_, audioFilename env, audio, rfl, rfl, Or.inl rfl, ?_⟩
      rcases return_uploaded_url env (audioFilename env) with h | h
      · exact Or.inl h
      · exact Or.inr (Or.inl h)
    | none => exact ttsFromGtts_ok env req oe (atts ++ [.openai])
  · simp only [ho, if_false]
    exact ttsFromGtts_ok env req oe atts

/-! ## Claim theorems -/

/-- C4: for every synthesis request whose text is empty, `tts` rejects the
request with HTTP 400 before any provider is attempted (empty attempts
trace) and creates no file of any kind (empty write list). -/
theorem C4_empty_text_rejected (env : Env) (v f : String) :
    tts env ⟨"", v, f⟩ = ⟨.error ⟨400, "text is required"⟩, [], []⟩ := rfl

/-- C8: for every translation request with non-empty text, when no
translation-provider credential is configured, `translate` returns the
character-wise reversal of the input text, echoes the requested target
language, and sets `mock` to `true`. -/
theorem C8_translate_mock_reversal (openaiCall : Except String String)
    (req : TranslateRequest) (h : req.text ≠ "") :
    translate false openaiCall req =
      .ok ⟨strReverse req.text, req.target, true, none⟩ := by
  unfold translate
  simp [h]

/-- C8 witness at `text = "hello world"`, `target = "de"`. -/
theorem C8_translate_mock_reversal_witness :
    ("hello world" : String) ≠ "" ∧
      translate false (.ok "unused") ⟨"hello world", "auto", "de"⟩ =
        .ok ⟨strReverse "hello world", "de", true, none⟩ :=
  ⟨by decide, C8_translate_mock_reversal (.ok "unused") ⟨"hello world", "auto", "de"⟩
    (by decide)⟩

/-- C9: with no master password configured (or a blank one, which the code
treats as unconfigured), `verify_auth` accepts every request regardless of
the `Authorization` header; with a master password configured, a request
whose header is absent, is not a Bearer header, or whose token is not in the
valid-token set is rejected with a 401 error, and a Bearer request whose
token is in the set is accepted. -/
theorem C9_verify_auth_cases (mp : Option String) (toks : List String)
    (auth : Option String) :
    (optTruthy mp = false → verify_auth mp toks auth = .ok true) ∧
    (optTruthy mp = true →
      (auth = none →
        verify_auth mp toks auth = .error ⟨401, "Authentication required"⟩) ∧
      (∀ a, auth = some a →
        (strStartsWith a "Bearer " = true →
          toks.contains (pyReplace a "Bearer " "") = true →
          verify_auth mp toks auth = .ok true) ∧
        (strStartsWith a "Bearer " = false ∨
            toks.contains (pyReplace a "Bearer " "") = false →
          ∃ d, verify_auth mp toks auth = .error ⟨401, d⟩))) := by
  constructor
  · intro h
    simp [verify_auth, h]
  · intro hT
    constructor
    · intro hn
      subst hn
      simp [verify_auth, hT]
    · intro a ha
      subst ha
      constructor
      · intro hs hc
        have he : ¬(a = "") := by
          intro h0
          subst h0
          exact absurd hs (by decide)
        have hc2 : pyReplace a "Bearer " "" ∈ toks := by simpa using hc
        simp [verify_auth, hT, he, hs, hc2]
      · intro hrej
        by_cases he : a = ""
        · subst he
          exact ⟨"Authentication required", by simp [verify_auth, hT]⟩
        · rcases hrej with hs | hc
          · refine ⟨"Invalid authorization header", ?_⟩
            simp [verify_auth, hT, he, hs]
          · by_cases hs : strStartsWith a "Bearer "
            · refine ⟨"Invalid or expired token", ?_⟩
              have hc2 : pyReplace a "Bearer " "" ∉ toks := by simpa using hc
              simp [verify_auth, hT, he, hs, hc2]
            · refine ⟨"Invalid authorization header", ?_⟩
              simp [verify_auth, hT, he, hs]

/-- C9 witness: auth disabled accepts a tokenless request; auth enabled
rejects a missing header and a wrong token, accepts a valid Bearer token. -/
theorem C9_verify_auth_cases_witness :
    verify_auth none ["tok"] none = .ok true ∧
    verify_auth (some "pw") ["tok"] none =
      .error ⟨401, "Authentication required"⟩ ∧
    (∃ d, verify_auth (some "pw") ["tok"] (some "Bearer bad") = .error ⟨401, d⟩) ∧
    verify_auth (some "pw") ["tok"] (some "Bearer tok") = .ok true :=
  ⟨(C9_verify_auth_cases none ["tok"] none).1 (by decide),
   ((C9_verify_auth_cases (some "pw") ["tok"] none).2 (by decide)).1 rfl,
   (((C9_verify_auth_cases (some "pw") ["tok"] (some "Bearer bad")).2 (by decide)).2
      "Bearer bad" rfl).2 (Or.inr (by decide)),
   (((C9_verify_auth_cases (some "pw") ["tok"] (some "Bearer tok")).2 (by decide)).2
      "Bearer tok" rfl).1 (by decide) (by decide)⟩

/-- C6: the delivery step is a three-case function of the remote-blob
configuration: (a) remote configured and upload succeeds — the returned url
is the locally-proxied `/api/audio/` URL and the raw remote URL is carried
only as `blob_url` metadata; (b) remote upload fails — local `/storage/`
URL with the failure detail as `error`; (c) no remote backend — local
`/storage/` URL with no error annotation. -/
theorem C6_delivery_three_cases (env : Env) (name : String) :
    (env.blobConfigured = true → ∀ raw, env.blobUploadResult = .ok raw →
      return_uploaded env name =
        { url := env.backendUrl ++ "/api/audio/" ++ name, mock := false,
          storage := some "azure", blob_url := some raw }) ∧
    (env.blobConfigured = true → ∀ e, env.blobUploadResult = .error e →
      return_uploaded env name =
        { url := env.backendUrl ++ "/storage/" ++ name, mock := false,
          error := some e }) ∧
    (env.blobConfigured = false →
      return_uploaded env name =
        { url := env.backendUrl ++ "/storage/" ++ name, mock := false }) := by
  refine ⟨fun hb raw hu => ?_, fun hb e hu => ?_, fun hb => ?_⟩ <;>
    simp_all [return_uploaded]

/-- C6 witness: all three delivery cases at concrete environments. -/
theorem C6_delivery_three_cases_witness :
    return_uploaded ⟨none, false, true, "https://b", none, "u1", "u2",
        .ok "", none, .ok "", .ok "https://raw/f.mp3"⟩ "f.mp3" =
      { url := "https://b/api/audio/f.mp3", mock := false,
        storage := some "azure", blob_url := some "https://raw/f.mp3" } ∧
    return_uploaded ⟨none, false, true, "https://b", none, "u1", "u2",
        .ok "", none, .ok "", .error "upload boom"⟩ "f.mp3" =
      { url := "https://b/storage/f.mp3", mock := false,
        error := some "upload boom" } ∧
    return_uploaded ⟨none, false, false, "https://b", none, "u1", "u2",
        .ok "", none, .ok "", .ok "https://raw/f.mp3"⟩ "f.mp3" =
      { url := "https://b/storage/f.mp3", mock := false } :=
  ⟨(C6_delivery_three_cases _ "f.mp3").1 rfl "https://raw/f.mp3" rfl,
   (C6_delivery_three_cases _ "f.mp3").2.1 rfl "upload boom" rfl,
   (C6_delivery_three_cases _ "f.mp3").2.2 rfl⟩

/-- C7: when a remote backend is configured, the read path starts with the
remote existence check; a successful remote fetch is served from the remote
store; on any remote miss or error the local file is served when present;
and the result is a 404 error exactly when the remote fetch yields no data
and the local file is absent. -/
theorem C7_audio_proxy_read_path (cfg : Bool) (remote : RemoteFetch)
    (localFile : Option String) (name : String) :
    (cfg = true →
      (audio_proxy cfg remote localFile name).ops.head? =
        some .remoteExistsCheck) ∧
    (∀ d, cfg = true → remoteSuccess remote = some d →
      (audio_proxy cfg remote localFile name).response =
        .ok ⟨"remote", d, mediaTypeFor name⟩) ∧
    (∀ c, (cfg = false ∨ remoteSuccess remote = none) → localFile = some c →
      (audio_proxy cfg remote localFile name).response =
        .ok ⟨"local", c, mediaTypeFor name⟩) ∧
    ((audio_proxy cfg remote localFile name).response =
        .error ⟨404, "Audio not found"⟩ ↔
      ¬(cfg = true ∧ (remoteSuccess remote).isSome = true) ∧ localFile = none) := by
  cases cfg <;> cases remote <;> cases localFile <;>
    simp [audio_proxy, proxyLocalStep, remoteSuccess]

/-- C7 witness: remote hit is served remotely after the existence check;
remote error falls back to the local file; a double miss is a 404. -/
theorem C7_audio_proxy_read_path_witness :
    (audio_proxy true (.found "xyz") (some "loc") "a.wav").ops.head? =
      some .remoteExistsCheck ∧
    (audio_proxy true (.found "xyz") (some "loc") "a.wav").response =
      .ok ⟨"remote", "xyz", "audio/wav"⟩ ∧
    (audio_proxy true (.errorAtDownload "boom") (some "loc") "a.mp3").response =
      .ok ⟨"local", "loc", "audio/mpeg"⟩ ∧
    (audio_proxy true .notExists none "a.ogg").response =
      .error ⟨404, "Audio not found"⟩ :=
  ⟨(C7_audio_proxy_read_path true (.found "xyz") (some "loc") "a.wav").1 rfl,
   (C7_audio_proxy_read_path true (.found "xyz") (some "loc") "a.wav").2.1
     "xyz" rfl rfl,
   (C7_audio_proxy_read_path true (.errorAtDownload "boom") (some "loc")
     "a.mp3").2.2.1 "loc" (Or.inr rfl) rfl,
   ((C7_audio_proxy_read_path true .notExists none "a.ogg").2.2.2).mpr
     ⟨by decide, rfl⟩⟩

/-- C10: the stored voice-sample extension is always one of `.wav`, `.mp3`,
`.ogg`, `.webm`; it is a function of the content type alone whenever a
content type is present; a present content type matching none of wav, mp3,
ogg yields `.webm` regardless of the filename; and the last-dot filename
extension is consulted only when no content type is present. -/
theorem C10_upload_extension (ct fn : Option String) :
    (uploadExt ct fn ∈ [".wav", ".mp3", ".ogg", ".webm"]) ∧
    (optTruthy ct = true → ∀ fn2, uploadExt ct fn = uploadExt ct fn2) ∧
    (optTruthy ct = true →
      strContains (strToLower (ct.getD "")) "wav" = false →
      strContains (strToLower (ct.getD "")) "mp3" = false →
      strContains (strToLower (ct.getD "")) "ogg" = false →
      uploadExt ct fn = ".webm") ∧
    (optTruthy ct = false → ∀ f2, fn = some f2 → optTruthy fn = true →
      uploadExt ct fn =
        (if strToLower (fileExtOf f2) = "wav" ∨ strToLower (fileExtOf f2) = "mp3" ∨
            strToLower (fileExtOf f2) = "ogg" ∨ strToLower (fileExtOf f2) = "webm"
         then "." ++ strToLower (fileExtOf f2) else ".webm")) := by
  refine ⟨?_, fun hct fn2 => ?_, fun hct h1 h2 h3 => ?_, fun hct f2 hf2 hfn => ?_⟩
  · unfold uploadExt
    by_cases hct : optTruthy ct
    · simp only [hct, if_true]
      by_cases h1 : strContains (strToLower (ct.getD "")) "wav" <;>
        by_cases h2 : strContains (strToLower (ct.getD "")) "mp3" <;>
        by_cases h3 : strContains (strToLower (ct.getD "")) "ogg" <;>
        simp [h1, h2, h3]
    · simp only [hct]
      by_cases hfn : optTruthy fn
      · simp only [hfn, if_true, if_false, Bool.false_eq_true]
        by_cases hfe : strToLower (fileExtOf (fn.getD "")) = "wav" ∨
            strToLower (fileExtOf (fn.getD "")) = "mp3" ∨
            strToLower (fileExtOf (fn.getD "")) = "ogg" ∨
            strToLower (fileExtOf (fn.getD "")) = "webm"
        · rcases hfe with h | h | h | h <;> simp [h]
        · simp [hfe]
      · simp [hfn]
  · unfold uploadExt
    simp [hct]
  · unfold uploadExt
    simp [hct, h1, h2, h3]
  · subst hf2
    unfold uploadExt
    simp [hct, hfn]

/-- C10 witness: a recognized content type decides the extension even
against a conflicting filename; an unrecognized content type yields `.webm`
despite a recognized filename extension; the filename is used only without a
content type. -/
theorem C10_upload_extension_witness :
    uploadExt (some "audio/flac") (some "x.wav") = ".webm" ∧
    uploadExt (some "audio/flac") (some "x.wav") =
      uploadExt (some "audio/flac") (some "y.ogg") ∧
    uploadExt none (some "x.wav") =
      (if strToLower (fileExtOf "x.wav") = "wav" ∨
          strToLower (fileExtOf "x.wav") = "mp3" ∨
          strToLower (fileExtOf "x.wav") = "ogg" ∨
          strToLower (fileExtOf "x.wav") = "webm"
       then "." ++ strToLower (fileExtOf "x.wav") else ".webm") :=
  ⟨(C10_upload_extension (some "audio/flac") (some "x.wav")).2.2.1 rfl rfl rfl rfl,
   (C10_upload_extension (some "audio/flac") (some "x.wav")).2.1 rfl (some "y.ogg"),
   (C10_upload_extension none (some "x.wav")).2.2.2 rfl "x.wav" rfl rfl⟩

/-- C1: for every synthesis request with non-empty text, `tts` never raises
to the caller — it returns a success response — and at return time exactly
one new artifact has been persisted to storage (the `.mp3` audio file or the
`.txt` placeholder) whose name is referenced by the returned url, whatever
the provider outcomes, including total provider failure. -/
theorem C1_tts_always_one_artifact (env : Env) (req : TTSRequest)
    (h : req.text ≠ "") :
    ∃ r n c, (tts env req).response = .ok r ∧ (tts env req).files = [(n, c)] ∧
      (n = audioFilename env ∨ n = placeholderName env) ∧
      (r.url = env.backendUrl ++ "/api/audio/" ++ n ∨
       r.url = env.backendUrl ++ "/storage/" ++ n ∨
       r.url = "/storage/" ++ n) := by
  unfold tts
  simp only [if_neg h]
  cases hc : clonedLookup env req.voice with
  | none => exact ttsFromOpenai_ok env req none []
  | some elId =>
    by_cases hk : optTruthy env.elevenlabsKey
    · simp only [hk, if_true]
      cases he : env.elevenlabsResult with
      | ok audio =>
        refine ⟨_, audioFilename env, audio, rfl, rfl, Or.inl rfl, ?_⟩
        rcases return_uploaded_url env (audioFilename env) with h2 | h2
        · exact Or.inl h2
        · exact Or.inr (Or.inl h2)
      | error e => exact ttsFromOpenai_ok env req _ [.elevenlabs]
    · simp only [hk, if_false]
      exact ttsFromOpenai_ok env req _ []

/-- C1 witness: a request at a total-failure environment (no providers
succeed) still returns success with exactly one persisted artifact. -/
theorem C1_tts_always_one_artifact_witness :
    ("hi" : String) ≠ "" ∧
      ∃ r n c,
        (tts ⟨none, false, false, "", none, "aaaa", "bbbb",
              .error "e", none, .error "g", .ok "u"⟩
            ⟨"hi", "default", "wav"⟩).response = .ok r ∧
        (tts ⟨none, false, false, "", none, "aaaa", "bbbb",
              .error "e", none, .error "g", .ok "u"⟩
            ⟨"hi", "default", "wav"⟩).files = [(n, c)] ∧
        (n = audioFilename ⟨none, false, false, "", none, "aaaa", "bbbb",
              .error "e", none, .error "g", .ok "u"⟩ ∨
         n = placeholderName ⟨none, false, false, "", none, "aaaa", "bbbb",
              .error "e", none, .error "g", .ok "u"⟩) ∧
        (r.url = "" ++ "/api/audio/" ++ n ∨ r.url = "" ++ "/storage/" ++ n ∨
         r.url = "/storage/" ++ n) :=
  ⟨by decide,
   C1_tts_always_one_artifact
     ⟨none, false, false, "", none, "aaaa", "bbbb",
      .error "e", none, .error "g", .ok "u"⟩
     ⟨"hi", "default", "wav"⟩ (by decide)⟩

/-! ## Further helper lemmas for the corrected claims -/

theorem elDiag_truthy (e : String) :
    optTruthy (some ("ElevenLabs: " ++ e)) = true := by
  cases e with
  | mk l => rfl

example : ("ab" ++ String.mk ['c']).data = ['a', 'b', 'c'] := rfl

/-- C2 counterexample: cloned voice, the ElevenLabs call and the OpenAI
attempt both fail, gTTS succeeds — the response synthesis-diagnostic
trail is the single cloning-provider detail, not a trail of length 2: the
primary-provider failure is only logged (lines 338-340) and never surfaced,
and `openai_error` is one string, not a list. -/
theorem C2_counterexample :
    ((tts ⟨some "k", true, false, "", some [("v", "el1")], "aaaa", "bbbb",
          .error "boom", none, .ok "GA", .ok "unused"⟩
        ⟨"hi", "v", "wav"⟩).response.toOption.map synthTrail) =
      some ["ElevenLabs: boom"] ∧
    ((tts ⟨some "k", true, false, "", some [("v", "el1")], "aaaa", "bbbb",
          .error "boom", none, .ok "GA", .ok "unused"⟩
        ⟨"hi", "v", "wav"⟩).response.toOption.map
        (fun r => (synthTrail r).length)) = some 1 :=
  ⟨rfl, rfl⟩

/-- C2 amended: for a cloned-voice request, when the ElevenLabs call fails
with a `RequestException` and the OpenAI attempt also fails, `tts` still
returns the offline-fallback (gTTS) audio asset; its response carries a
diagnostic trail of length 1 holding only the cloning-provider failure
detail — the primary-provider failure detail is logged but not surfaced. -/
theorem C2_cloned_double_failure_gtts (env : Env) (req : TTSRequest)
    (elId e audio : String)
    (ht : req.text ≠ "")
    (hc : clonedLookup env req.voice = some elId)
    (hk : optTruthy env.elevenlabsKey = true)
    (he : env.elevenlabsResult = .error e)
    (ho : env.openaiConfigured = true)
    (hor : env.openaiResult = none)
    (hg : env.gttsResult = .ok audio) :
    ∃ r, (tts env req).response = .ok r ∧
      r.mock = false ∧
      (tts env req).files = [(audioFilename env, audio)] ∧
      synthTrail r = ["ElevenLabs: " ++ e] ∧
      (tts env req).attempts = [.elevenlabs, .openai, .gtts] := by
  unfold tts
  simp only [if_neg ht, hc, hk, if_true, he]
  unfold ttsFromOpenai
  simp only [ho, if_true, hor]
  unfold ttsFromGtts
  simp only [hg]
  exact ⟨_, rfl, return_uploaded_mock env (audioFilename env), trivial, rfl, rfl⟩

/-- C2 amended witness: concrete double-failure cloned-voice request. -/
theorem C2_cloned_double_failure_gtts_witness :
    ∃ r, (tts ⟨some "k", true, false, "", some [("v", "el1")], "aaaa", "bbbb",
              .error "boom", none, .ok "GA", .ok "unused"⟩
            ⟨"hi", "v", "wav"⟩).response = .ok r ∧
      r.mock = false ∧
      (tts ⟨some "k", true, false, "", some [("v", "el1")], "aaaa", "bbbb",
            .error "boom", none, .ok "GA", .ok "unused"⟩
          ⟨"hi", "v", "wav"⟩).files =
        [(audioFilename ⟨some "k", true, false, "", some [("v", "el1")],
            "aaaa", "bbbb", .error "boom", none, .ok "GA", .ok "unused"⟩, "GA")] ∧
      synthTrail r = ["ElevenLabs: " ++ "boom"] ∧
      (tts ⟨some "k", true, false, "", some [("v", "el1")], "aaaa", "bbbb",
            .error "boom", none, .ok "GA", .ok "unused"⟩
          ⟨"hi", "v", "wav"⟩).attempts = [.elevenlabs, .openai, .gtts] :=
  C2_cloned_double_failure_gtts _ _ "el1" "boom" "GA"
    (by decide) rfl rfl rfl rfl rfl rfl

theorem listContains_iff {α : Type} [BEq α] [LawfulBEq α] (pat l : List α) :
    listContains pat l = true ↔ pat <:+: l := by
  induction l with
  | nil =>
    simp [listContains, List.isEmpty_iff]
  | cons a t ih =>
    rw [listContains]
    simp [ih, List.infix_cons_iff, List.isPrefixOf_iff_prefix]

theorem placeholder_has_voice (req : TTSRequest) :
    strContains (placeholderContent req) req.voice = true := by
  rw [strContains, listContains_iff]
  refine ⟨"TTS fallback placeholder for voice=".data,
    (", format=" ++ req.format ++ "\n\n" ++ req.text).data, ?_⟩
  simp [placeholderContent, List.append_assoc]

theorem placeholder_has_format (req : TTSRequest) :
    strContains (placeholderContent req) req.format = true := by
  rw [strContains, listContains_iff]
  refine ⟨("TTS fallback placeholder for voice=" ++ req.voice ++ ", format=").data,
    ("\n\n" ++ req.text).data, ?_⟩
  simp [placeholderContent, List.append_assoc]

theorem ttsFromGtts_placeholder (env : Env) (req : TTSRequest)
    (oe : Option String) (atts : List Provider) (ge : String)
    (hg : env.gttsResult = .error ge) :
    ttsFromGtts env req oe atts =
      ⟨.ok { url := "/storage/" ++ placeholderName env, mock := true,
             error := some ge,
             openai_error := if optTruthy oe then oe else none },
       [(placeholderName env, placeholderContent req)], atts ++ [.gtts]⟩ := by
  simp [ttsFromGtts, hg]

theorem ttsFromOpenai_placeholder (env : Env) (req : TTSRequest)
    (oe : Option String) (atts : List Provider) (ge : String)
    (h2 : env.openaiConfigured = false ∨ env.openaiResult = none)
    (hg : env.gttsResult = .error ge) :
    ∃ atts2, ttsFromOpenai env req oe atts =
      ⟨.ok { url := "/storage/" ++ placeholderName env, mock := true,
             error := some ge,
             openai_error := if optTruthy oe then oe else none },
       [(placeholderName env, placeholderContent req)], atts2⟩ := by
  unfold ttsFromOpenai
  rcases h2 with h | h
  · exact ⟨atts ++ [.gtts], by
      simp [h, ttsFromGtts_placeholder env req oe atts ge hg]⟩
  · cases ho : env.openaiConfigured with
    | true =>
      exact ⟨(atts ++ [.openai]) ++ [.gtts], by
        simp [h, ttsFromGtts_placeholder env req oe (atts ++ [.openai]) ge hg]⟩
    | false =>
      exact ⟨atts ++ [.gtts], by
        simp [ttsFromGtts_placeholder env req oe atts ge hg]⟩

theorem ttsFromOpenai_gtts_success (env : Env) (req : TTSRequest)
    (oe : Option String) (atts : List Provider) (audio : String)
    (h2 : env.openaiConfigured = false ∨ env.openaiResult = none)
    (hg : env.gttsResult = .ok audio) :
    ∃ atts2, ttsFromOpenai env req oe atts =
      ⟨.ok { return_uploaded env (audioFilename env) with
             openai_error := if optTruthy oe then oe else none },
       [(audioFilename env, audio)], atts2⟩ := by
  unfold ttsFromOpenai
  rcases h2 with h | h
  · exact ⟨atts ++ [.gtts], by simp [h, ttsFromGtts, hg]⟩
  · cases ho : env.openaiConfigured with
    | true => exact ⟨(atts ++ [.openai]) ++ [.gtts], by simp [h, ttsFromGtts, hg]⟩
    | false => exact ⟨atts ++ [.gtts], by simp [ttsFromGtts, hg]⟩

/-- C3 counterexample: on terminal exhaustion the persisted text artifact
records the voice, the format, and the request text — not the diagnostic
trail.  Here the prior ElevenLabs failure detail `ELBOOM` appears in the
response field `openai_error` but nowhere in the placeholder artifact. -/
theorem C3_counterexample :
    (tts ⟨some "k", true, false, "", some [("v", "el1")], "aaaa", "bbbb",
          .error "ELBOOM", none, .error "GBOOM", .ok "unused"⟩
        ⟨"hi", "v", "wav"⟩).files =
      [("tts_bbbb.txt",
        "TTS fallback placeholder for voice=v, format=wav\n\nhi")] ∧
    strContains "TTS fallback placeholder for voice=v, format=wav\n\nhi"
      "ELBOOM" = false ∧
    (tts ⟨some "k", true, false, "", some [("v", "el1")], "aaaa", "bbbb",
          .error "ELBOOM", none, .error "GBOOM", .ok "unused"⟩
        ⟨"hi", "v", "wav"⟩).response =
      .ok { url := "/storage/tts_bbbb.txt", mock := true,
            error := some "GBOOM",
            openai_error := some "ElevenLabs: ELBOOM" } :=
  ⟨rfl, rfl, rfl⟩

/-- C3 amended: when every synthesis stage including the offline fallback
fails, `tts` persists a human-readable text artifact recording the request
voice, format, and text (but not the diagnostic trail, which is carried on
the response body instead), and returns a success response whose body has
`mock = true`, an `error` field holding the fallback failure, and a url
referencing the placeholder. -/
theorem C3_placeholder_degraded_success (env : Env) (req : TTSRequest)
    (ge : String) (ht : req.text ≠ "")
    (h1 : clonedLookup env req.voice = none ∨
          optTruthy env.elevenlabsKey = false ∨
          ∃ e, env.elevenlabsResult = .error e)
    (h2 : env.openaiConfigured = false ∨ env.openaiResult = none)
    (hg : env.gttsResult = .error ge) :
    ∃ r, (tts env req).response = .ok r ∧
      r.mock = true ∧ r.error = some ge ∧
      r.url = "/storage/" ++ placeholderName env ∧
      (tts env req).files = [(placeholderName env, placeholderContent req)] ∧
      strContains (placeholderContent req) req.voice = true ∧
      strContains (placeholderContent req) req.format = true := by
  unfold tts
  simp only [if_neg ht]
  cases hc : clonedLookup env req.voice with
  | none =>
    obtain ⟨atts2, heq⟩ := ttsFromOpenai_placeholder env req none [] ge h2 hg
    rw [heq]
    exact ⟨_, rfl, rfl, rfl, rfl, rfl, placeholder_has_voice req,
      placeholder_has_format req⟩
  | some elId =>
    rcases h1 with h1 | h1 | ⟨e, h1⟩
    · rw [hc] at h1
      exact absurd h1 (by simp)
    · simp only [h1, Bool.false_eq_true, if_false]
      obtain ⟨atts2, heq⟩ := ttsFromOpenai_placeholder env req
        (some "ElevenLabs API key not configured") [] ge h2 hg
      rw [heq]
      exact ⟨_, rfl, rfl, rfl, rfl, rfl, placeholder_has_voice req,
        placeholder_has_format req⟩
    · cases hk : optTruthy env.elevenlabsKey with
      | true =>
        simp only [hk, if_true, h1]
        obtain ⟨atts2, heq⟩ := ttsFromOpenai_placeholder env req
          (some ("ElevenLabs: " ++ e)) [.elevenlabs] ge h2 hg
        rw [heq]
        exact ⟨_, rfl, rfl, rfl, rfl, rfl, placeholder_has_voice req,
          placeholder_has_format req⟩
      | false =>
        simp only [hk, Bool.false_eq_true, if_false]
        obtain ⟨atts2, heq⟩ := ttsFromOpenai_placeholder env req
          (some "ElevenLabs API key not configured") [] ge h2 hg
        rw [heq]
        exact ⟨_, rfl, rfl, rfl, rfl, rfl, placeholder_has_voice req,
          placeholder_has_format req⟩

/-- C3 amended witness: both cloud providers fail, then gTTS fails. -/
theorem C3_placeholder_degraded_success_witness :
    ∃ r, (tts ⟨some "k", true, false, "", some [("v", "el1")], "aaaa", "bbbb",
              .error "ELBOOM", none, .error "GBOOM", .ok "unused"⟩
            ⟨"hi", "v", "wav"⟩).response = .ok r ∧
      r.mock = true ∧ r.error = some "GBOOM" ∧
      r.url = "/storage/" ++ placeholderName
        ⟨some "k", true, false, "", some [("v", "el1")], "aaaa", "bbbb",
         .error "ELBOOM", none, .error "GBOOM", .ok "unused"⟩ ∧
      (tts ⟨some "k", true, false, "", some [("v", "el1")], "aaaa", "bbbb",
            .error "ELBOOM", none, .error "GBOOM", .ok "unused"⟩
          ⟨"hi", "v", "wav"⟩).files =
        [(placeholderName
            ⟨some "k", true, false, "", some [("v", "el1")], "aaaa", "bbbb",
             .error "ELBOOM", none, .error "GBOOM", .ok "unused"⟩,
          placeholderContent ⟨"hi", "v", "wav"⟩)] ∧
      strContains (placeholderContent ⟨"hi", "v", "wav"⟩) "v" = true ∧
      strContains (placeholderContent ⟨"hi", "v", "wav"⟩) "wav" = true :=
  C3_placeholder_degraded_success _ ⟨"hi", "v", "wav"⟩ "GBOOM" (by decide)
    (Or.inr (Or.inr ⟨"ELBOOM", rfl⟩)) (Or.inr rfl) rfl

/-- C5 counterexample: cloned voice with the cloning credential absent but
the primary provider succeeding — the "credential not configured" diagnostic
is dropped from the response (`openai_error` is absent), so it is not
present on the eventual response diagnostic trail. -/
theorem C5_counterexample :
    ((tts ⟨none, true, false, "", some [("v", "el1")], "aaaa", "bbbb",
          .error "unused", some "OA", .ok "unused", .ok "unused"⟩
        ⟨"hi", "v", "wav"⟩).response.toOption.map synthTrail) = some [] ∧
    (tts ⟨none, true, false, "", some [("v", "el1")], "aaaa", "bbbb",
          .error "unused", some "OA", .ok "unused", .ok "unused"⟩
        ⟨"hi", "v", "wav"⟩).attempts = [.openai] :=
  ⟨rfl, rfl⟩

/-- C5 amended: for a registry-matched voice with the cloning credential
absent, `tts` records the "credential not configured" diagnostic without
invoking the cloning provider and proceeds to the primary TTS attempt (it is
the first provider invoked when configured); the diagnostic reaches the
response trail only when the primary attempt does not produce audio — on
primary success it is dropped. -/
theorem C5_credential_missing_skip (env : Env) (req : TTSRequest)
    (elId : String) (ht : req.text ≠ "")
    (hc : clonedLookup env req.voice = some elId)
    (hk : optTruthy env.elevenlabsKey = false) :
    Provider.elevenlabs ∉ (tts env req).attempts ∧
    (env.openaiConfigured = true →
      (tts env req).attempts.head? = some .openai) ∧
    (∀ audio, env.openaiConfigured = true → env.openaiResult = some audio →
      ∃ r, (tts env req).response = .ok r ∧ r.openai_error = none) ∧
    ((env.openaiConfigured = false ∨ env.openaiResult = none) →
      ∃ r, (tts env req).response = .ok r ∧
        r.openai_error = some "ElevenLabs API key not configured") := by
  unfold tts
  simp only [if_neg ht, hc, hk, Bool.false_eq_true, if_false]
  refine ⟨?_, ?_, ?_, ?_⟩
  · unfold ttsFromOpenai ttsFromGtts
    cases ho : env.openaiConfigured with
    | true =>
      simp only [if_true]
      cases hr : env.openaiResult with
      | some audio => simp
      | none => cases hg : env.gttsResult <;> simp
    | false =>
      simp only [Bool.false_eq_true, if_false]
      cases hg : env.gttsResult <;> simp
  · intro ho
    unfold ttsFromOpenai ttsFromGtts
    simp only [ho, if_true]
    cases hr : env.openaiResult with
    | some audio => simp
    | none => cases hg : env.gttsResult <;> simp
  · intro audio ho hr
    unfold ttsFromOpenai
    simp only [ho, if_true, hr]
    exact ⟨_, rfl, by
      have := return_uploaded_mock env (audioFilename env)
      unfold return_uploaded at *
      cases hb : env.blobConfigured with
      | true =>
        simp only [hb, if_true]
        cases hu : env.blobUploadResult <;> simp
      | false => simp [hb]⟩
  · intro h2
    cases hg : env.gttsResult with
    | ok audio =>
      obtain ⟨atts2, heq⟩ := ttsFromOpenai_gtts_success env req
        (some "ElevenLabs API key not configured") [] audio h2 hg
      rw [heq]
      exact ⟨_, rfl, rfl⟩
    | error ge =>
      obtain ⟨atts2, heq⟩ := ttsFromOpenai_placeholder env req
        (some "ElevenLabs API key not configured") [] ge h2 hg
      rw [heq]
      exact ⟨_, rfl, rfl⟩

/-- C5 amended witness: concrete environments for both the primary-success
(diagnostic dropped) and primary-skipped (diagnostic surfaced) outcomes. -/
theorem C5_credential_missing_skip_witness :
    (∀ audio, true = true →
      (⟨none, true, false, "", some [("v", "el1")], "aaaa", "bbbb",
        .error "unused", some "OA", .ok "unused", .ok "unused"⟩ : Env).openaiResult =
          some audio →
      ∃ r, (tts ⟨none, true, false, "", some [("v", "el1")], "aaaa", "bbbb",
                .error "unused", some "OA", .ok "unused", .ok "unused"⟩
              ⟨"hi", "v", "wav"⟩).response = .ok r ∧ r.openai_error = none) ∧
    (∃ r, (tts ⟨none, false, false, "", some [("v", "el1")], "aaaa", "bbbb",
              .error "unused", none, .ok "G", .ok "unused"⟩
            ⟨"hi", "v", "wav"⟩).response = .ok r ∧
        r.openai_error = some "ElevenLabs API key not configured") :=
  ⟨(C5_credential_missing_skip
      ⟨none, true, false, "", some [("v", "el1")], "aaaa", "bbbb",
       .error "unused", some "OA", .ok "unused", .ok "unused"⟩
      ⟨"hi", "v", "wav"⟩ "el1" (by decide) rfl rfl).2.2.1,
   (C5_credential_missing_skip
      ⟨none, false, false, "", some [("v", "el1")], "aaaa", "bbbb",
       .error "unused", none, .ok "G", .ok "unused"⟩
      ⟨"hi", "v", "wav"⟩ "el1" (by decide) rfl rfl).2.2.2 (Or.inl rfl)⟩

end AsiasPanel
